import Mathlib

/-!
Verification of the Ottoman AI chat relay (src/app.py).

The program is a small Flask application: a `/chat` handler that keeps a
per-session transcript of chat turns, forwards it to a completion API,
post-processes the reply, a `/reset` handler that clears the session, and a
`/session_test` diagnostic counter.  We embed the session state, the text
cleaning function and the three handlers as pure Lean functions; the one
nondeterministic ingredient, the outcome of the upstream completion call, is
passed in as an `Except String String` value (error description, or the
extracted assistant content).
-/

namespace OttomanAI

/-- ASCII whitespace as recognised by Python `str.strip` and by the regex
class `\s`: space, tab, newline, carriage return, vertical tab, form feed. -/
def pySpace (c : Char) : Bool :=
  c = ' ' || c = '\t' || c = '\n' || c = '\r' || c = Char.ofNat 11 || c = Char.ofNat 12

/-- Python `str.strip()` on a list of characters: drop whitespace from both ends. -/
def pyStripList (l : List Char) : List Char :=
  ((l.dropWhile pySpace).reverse.dropWhile pySpace).reverse

/-- Python `str.strip()`. -/
def pyStrip (s : String) : String :=
  String.mk (pyStripList s.data)

/-- Python `str.lower()` (ASCII case folding, which is all the program compares). -/
def pyLower (s : String) : String :=
  String.mk (s.data.map Char.toLower)

/-- The characters removed by `re.sub` with the class of markdown characters in
`clean_response`: hash, asterisk, underscore, tilde, backtick (code point 96). -/
def mdChar (c : Char) : Bool :=
  c = '#' || c = '*' || c = '_' || c = '~' || c = Char.ofNat 96

/-- Greedy match of the regex tail `\s*\n` at the head of `l`: returns the
number of characters consumed by the longest match, or `none` when no match
exists.  Mirrors the backtracking behaviour of Python `re`: prefer the longer
whitespace run, fall back to ending the match at the current newline. -/
def consumeLen : List Char → Option Nat
  | [] => none
  | c :: rest =>
    if pySpace c then
      match consumeLen rest with
      | some n => some (n + 1)
      | none => if c = '\n' then some 1 else none
    else none

/-- The replacement text the second `re.sub` inserts for each blank-line run. -/
def brbr : List Char := '<' :: 'b' :: 'r' :: '>' :: '<' :: 'b' :: 'r' :: '>' :: []

/-- One left-to-right pass of `re.sub` with pattern `\n\s*\n` and replacement
`brbr`, written with explicit fuel so that the definition is structural; the
fuel is always at least the length of the list at every call site. -/
def subBlankAux : Nat → List Char → List Char
  | 0, l => l
  | Nat.succ f, [] => (fun _ => []) f
  | Nat.succ f, c :: rest =>
    if c = '\n' then
      match consumeLen rest with
      | some n => brbr ++ subBlankAux f (rest.drop n)
      | none => c :: subBlankAux f rest
    else c :: subBlankAux f rest

/-- `re.sub` of the pattern `\n\s*\n` by the paragraph-break marker. -/
def subBlank (l : List Char) : List Char :=
  subBlankAux l.length l

/-- `clean_response` from src/app.py: strip the fixed markdown characters,
replace every blank-line run with the paragraph-break marker, and strip
surrounding whitespace. -/
def clean_response (text : String) : String :=
  String.mk (pyStripList (subBlank (text.data.filter (fun c => !(mdChar c)))))

/-- One chat turn: a role tag and free-form content, mirroring the
role/content dictionaries stored in `session["chat_history"]`. -/
structure Turn where
  role : String
  content : String
deriving DecidableEq, Repr

/-- The server-side session dictionary: each field models one key the
application uses, `none` meaning the key is absent. -/
structure SessionState where
  chat_history : Option (List Turn)
  bot_response_count : Option Nat
  test : Option Nat
deriving DecidableEq, Repr

/-- The session with no keys set (a fresh session, or one just cleared). -/
def emptySession : SessionState :=
  { chat_history := none, bot_response_count := none, test := none }

/-- The fixed persona/instruction text seeded as the system turn. -/
def personaText : String :=
  "You are Ottoman AI, a professional AI chef providing expert food and nutrition advice. " ++
  "Offer detailed, accurate, and culturally sensitive culinary information, ensuring your responses " ++
  "are tailored to the needs and preferences of the user.\n\n" ++
  "# Guidelines:\n" ++
  "- **Expertise**: Provide precise measurements, techniques, and substitutions where applicable.\n" ++
  "- **Cultural Awareness**: Be mindful of global culinary traditions (vegan, halal, kosher, etc.).\n" ++
  "- **Clarity and Precision**: Use clear step-by-step instructions.\n" ++
  "- **Customizability**: Tailor suggestions to user preferences, skill level, and available ingredients.\n\n" ++
  "# Output Format:\n" ++
  "For recipes: \n" ++
  "- Title\n" ++
  "- Ingredients (with quantities)\n" ++
  "- Instructions (step-by-step)\n" ++
  "- Serving Suggestions\n" ++
  "- Nutrition Information (optional)\n\n" ++
  "For nutrition advice: Provide concise and clear responses."

/-- The system turn seeded when the transcript is initialized. -/
def systemTurn : Turn :=
  { role := "system", content := personaText }

/-- The outcome the `/chat` handler reports to the HTTP caller. -/
inductive ChatResult where
  | ok (reply : String)
  | validationError (msg : String)
  | relayError (msg : String)
deriving DecidableEq, Repr

/-- Lines 57-79 of src/app.py: if the session has no `chat_history` key, seed
it with the single system turn and set `bot_response_count` to zero. -/
def initSession (st : SessionState) : SessionState :=
  if st.chat_history = none then
    { st with chat_history := some [systemTurn], bot_response_count := some 0 }
  else st

/-- Lines 82-83 of src/app.py: if the stripped message lowercases to
`"continue"` and the transcript has more than one entry, rewrite the message
to continue from the content of the last transcript entry. -/
def effectiveMessage (hist : List Turn) (m : String) : String :=
  if pyLower m = "continue" ∧ 1 < hist.length then
    "Continue from where you left off: " ++ (hist.getLastD { role := "", content := "" }).content
  else m

/-- The `/chat` handler (lines 48-107 of src/app.py).  `message` is the value
of the `"message"` key of the JSON body (`none` when the key is absent, which
`data.get` defaults to the empty string); `completion` is the outcome of the
upstream completion call together with the extraction of the first choice
content (an exception raised anywhere in the `try` block before the session
mutations is an `Except.error` carrying `str(e)`).  The inner match on
`bot_response_count` mirrors the fact that line 101 of the source raises
`KeyError` when the key is absent, after line 100 already appended the
assistant turn, and that this exception is caught by the same handler. -/
def chat (st : SessionState) (message : Option String) (completion : Except String String) :
    SessionState × ChatResult :=
  let user_message := pyStrip (message.getD "")
  if user_message = "" then
    (st, ChatResult.validationError "Please enter a message.")
  else
    let st1 := initSession st
    let hist := st1.chat_history.getD []
    let eff := effectiveMessage hist user_message
    let hist2 := hist ++ [{ role := "user", content := eff }]
    let st2 := { st1 with chat_history := some hist2 }
    match completion with
    | Except.error e => (st2, ChatResult.relayError ("Unexpected error: " ++ e))
    | Except.ok assistant_message =>
      let hist3 := hist2 ++ [{ role := "assistant", content := assistant_message }]
      match st2.bot_response_count with
      | none =>
        ({ st2 with chat_history := some hist3 },
          ChatResult.relayError "Unexpected error: 'bot_response_count'")
      | some n =>
        ({ st2 with chat_history := some hist3, bot_response_count := some (n + 1) },
          ChatResult.ok (clean_response assistant_message))

/-- The `/reset` handler (lines 110-114 of src/app.py): `session.clear()`
removes every key, then a fixed message is returned. -/
def reset_chat (_st : SessionState) : SessionState × String :=
  (emptySession, "Chat history has been reset.")

/-- The `/session_test` handler (lines 117-121 of src/app.py): increment the
`"test"` key, treating an absent key as 0, and return the counter as text. -/
def session_test (st : SessionState) : SessionState × String :=
  let n := st.test.getD 0 + 1
  ({ st with test := some n }, "Session count: " ++ toString n)

/-- The transcript as it stands right after the initialization step. -/
def histAfterInit (st : SessionState) : List Turn :=
  (initSession st).chat_history.getD []

/-- A transcript that begins with a system turn and contains no other one. -/
def oneSystemFirst (h : List Turn) : Prop :=
  h.head?.map Turn.role = some "system" ∧
    h.countP (fun t => t.role == "system") = 1

instance (h : List Turn) : Decidable (oneSystemFirst h) := by
  unfold oneSystemFirst; infer_instance

/-- The number of assistant turns in a transcript. -/
def countAssistant (h : List Turn) : Nat :=
  h.countP (fun t => t.role == "assistant")

/-- The session-state invariant tying the reply counter to the transcript:
either neither key is present, or both are and the counter equals the number
of assistant turns. -/
def replyCountInv (st : SessionState) : Prop :=
  match st.chat_history, st.bot_response_count with
  | none, none => True
  | some h, some n => n = countAssistant h
  | _, _ => False

/-- Claim C7: applying the response-cleaning function to the string
`"**Title**\n\n- item"` yields exactly `"Title<br><br>- item"`: the markdown
marker characters are stripped and the blank-line sequence is replaced by the
paragraph-break marker `"<br><br>"`. -/
theorem clean_response_markdown_example :
    clean_response "**Title**\n\n- item" = "Title<br><br>- item" := by
  decide

/-- Claim C4: for every input that is empty or whitespace-only after trimming,
the chat handler fails with the validation error (the 400 response carrying
the user-visible message) and the session state — transcript and reply
counter — is unchanged. -/
theorem chat_blank_input_rejected (st : SessionState) (m : String)
    (comp : Except String String) (hm : pyStrip m = "") :
    chat st (some m) comp = (st, ChatResult.validationError "Please enter a message.") := by
  simp [chat, hm]

/-- Witness for C4 at a whitespace-only input. -/
theorem chat_blank_input_rejected_witness :
    chat emptySession (some "   ") (Except.ok "x") =
      (emptySession, ChatResult.validationError "Please enter a message.") :=
  chat_blank_input_rejected emptySession "   " (Except.ok "x") (by decide)

/-- Claim C9: a `/chat` request whose JSON body lacks the `"message"` key is
treated exactly like an empty message: the handler fails with the 400
validation error and leaves all session state unchanged (the missing key
defaults to the empty string before trimming). -/
theorem chat_missing_message_key (st : SessionState) (comp : Except String String) :
    chat st none comp = (st, ChatResult.validationError "Please enter a message.") ∧
    chat st none comp = chat st (some "") comp :=
  ⟨rfl, rfl⟩

/-- Claim C10: every call to the `session_test` diagnostic increments the
session key `"test"` by exactly one (treating an absent key as 0) and leaves
the chat transcript and the reply counter unchanged. -/
theorem session_test_increments_only_test (st : SessionState) :
    (session_test st).1.test = some (st.test.getD 0 + 1) ∧
    (session_test st).1.chat_history = st.chat_history ∧
    (session_test st).1.bot_response_count = st.bot_response_count ∧
    (session_test st).2 = "Session count: " ++ toString (st.test.getD 0 + 1) :=
  ⟨rfl, rfl, rfl, rfl⟩

/-- Claim C3: for every input reaching the upstream call, if the completion
call fails (network error, non-2xx status, or malformed response body — all
surfaced as one exception whose description is `e`), the chat handler returns
the relay error built from that description (the 500 response) and mutates
the transcript only by the already-appended user turn: no assistant turn is
appended and the reply counter (and every other session key) is unchanged. -/
theorem chat_upstream_failure_frame (st : SessionState) (h : List Turn) (m e : String)
    (hh : st.chat_history = some h) (hm : pyStrip m ≠ "") :
    chat st (some m) (Except.error e) =
      ({ st with
          chat_history := some (h ++ [{ role := "user", content := effectiveMessage h (pyStrip m) }]) },
        ChatResult.relayError ("Unexpected error: " ++ e)) := by
  obtain ⟨ch, cnt, tst⟩ := st
  simp only [SessionState.mk.injEq] at hh ⊢
  subst hh
  simp [chat, hm, initSession]

/-- Witness for C3 at a concrete initialized session and failing upstream. -/
theorem chat_upstream_failure_frame_witness :
    chat { chat_history := some [systemTurn], bot_response_count := some 0, test := none }
        (some " hi ") (Except.error "boom") =
      ({ chat_history := some [systemTurn, { role := "user", content := "hi" }],
          bot_response_count := some 0, test := none },
        ChatResult.relayError "Unexpected error: boom") :=
  chat_upstream_failure_frame _ [systemTurn] " hi " "boom" rfl (by decide)

/-- Claim C5: for every session whose transcript holds the system turn and at
least one prior conversational turn (so more than one entry, the condition the
handler tests), if the trimmed input case-insensitively equals `"continue"`,
the user turn appended carries `"Continue from where you left off: "`
concatenated with the content of the most recent transcript entry; whatever
the upstream call then does only adds turns after it. -/
theorem chat_continue_rewrites_message (st : SessionState) (h : List Turn) (m : String)
    (comp : Except String String)
    (hh : st.chat_history = some h) (hlen : 1 < h.length)
    (hc : pyLower (pyStrip m) = "continue") :
    ∃ tail, (chat st (some m) comp).1.chat_history =
      some (h ++
        { role := "user"
          content := "Continue from where you left off: " ++ (h.getLastD { role := "", content := "" }).content } ::
        tail) := by
  have hm : pyStrip m ≠ "" := by
    intro hx
    rw [hx] at hc
    exact absurd hc (by decide)
  obtain ⟨ch, cnt, tst⟩ := st
  simp only [SessionState.mk.injEq] at hh
  subst hh
  cases comp with
  | error e =>
    exact ⟨[], by simp [chat, hm, initSession, effectiveMessage, hc, hlen]⟩
  | ok a =>
    cases cnt with
    | none =>
      exact ⟨[{ role := "assistant", content := a }],
        by simp [chat, hm, initSession, effectiveMessage, hc, hlen]⟩
    | some n =>
      exact ⟨[{ role := "assistant", content := a }],
        by simp [chat, hm, initSession, effectiveMessage, hc, hlen]⟩

/-- Witness for C5 at a transcript with one assistant turn after the system
turn and the input `" Continue "`. -/
theorem chat_continue_rewrites_message_witness :
    ∃ tail, (chat
        { chat_history := some [systemTurn, { role := "assistant", content := "Use lentils." }]
          bot_response_count := some 1
          test := none }
        (some " Continue ") (Except.error "x")).1.chat_history =
      some ([systemTurn, { role := "assistant", content := "Use lentils." }] ++
        { role := "user", content := "Continue from where you left off: Use lentils." } :: tail) :=
  chat_continue_rewrites_message _ [systemTurn, { role := "assistant", content := "Use lentils." }]
    " Continue " (Except.error "x") rfl (by decide) (by decide)

/-- Claim C6: the reset operation unconditionally clears all session state and
always succeeds with the fixed message, and any chat-handler call with a
non-blank input after a reset reinitializes the transcript to exactly one
system turn followed by the new user turn (anything after that is only the
assistant turn a successful completion adds). -/
theorem reset_then_chat_reinitializes (st : SessionState) (m : String)
    (comp : Except String String) (hm : pyStrip m ≠ "") :
    reset_chat st = (emptySession, "Chat history has been reset.") ∧
    ∃ tail, (chat (reset_chat st).1 (some m) comp).1.chat_history =
        some (systemTurn :: { role := "user", content := pyStrip m } :: tail) ∧
        ∀ t ∈ tail, t.role = "assistant" := by
  refine ⟨rfl, ?_⟩
  cases comp with
  | error e =>
    refine ⟨[], ?_, by simp⟩
    simp [reset_chat, chat, hm, emptySession, initSession, effectiveMessage]
  | ok a =>
    refine ⟨[{ role := "assistant", content := a }], ?_, by simp⟩
    simp [reset_chat, chat, hm, emptySession, initSession, effectiveMessage]

/-- Witness for C6 at a populated session, a fresh message and a successful
completion. -/
theorem reset_then_chat_reinitializes_witness :
    reset_chat { chat_history := some [systemTurn], bot_response_count := some 3, test := some 7 } =
        (emptySession, "Chat history has been reset.") ∧
    ∃ tail, (chat (reset_chat
            { chat_history := some [systemTurn], bot_response_count := some 3, test := some 7 }).1
          (some "hi") (Except.ok "ok")).1.chat_history =
        some (systemTurn :: { role := "user", content := "hi" } :: tail) ∧
        ∀ t ∈ tail, t.role = "assistant" :=
  reset_then_chat_reinitializes _ "hi" (Except.ok "ok") (by decide)

/-- Claim C1: for every non-empty (after trimming) input message, a successful
call to the chat handler appends exactly one user turn (with the effective
message) and then exactly one assistant turn, in that order; the assistant
turn stores the raw (uncleaned) completion content, while the value returned
to the caller is the cleaned text.  The side condition on the reply counter
rules out the unreachable dictionary state in which `chat_history` exists but
`bot_response_count` does not, where line 101 of the source would raise. -/
theorem chat_success_appends_user_then_assistant (st : SessionState) (m a : String)
    (hm : pyStrip m ≠ "")
    (hcnt : st.chat_history = none ∨ st.bot_response_count ≠ none) :
    (chat st (some m) (Except.ok a)).1.chat_history =
      some (histAfterInit st ++
        [{ role := "user", content := effectiveMessage (histAfterInit st) (pyStrip m) },
         { role := "assistant", content := a }]) ∧
    (chat st (some m) (Except.ok a)).2 = ChatResult.ok (clean_response a) := by
  obtain ⟨ch, cnt, tst⟩ := st
  cases ch with
  | none =>
    simp [chat, hm, initSession, histAfterInit]
  | some h =>
    have hc2 : cnt ≠ none := by
      rcases hcnt with h1 | h1
      · exact absurd h1 (by simp)
      · exact h1
    cases cnt with
    | none => exact absurd rfl hc2
    | some n =>
      simp [chat, hm, initSession, histAfterInit]

/-- Witness for C1 on a fresh session with a markdown-laden completion. -/
theorem chat_success_appends_user_then_assistant_witness :
    (chat emptySession (some "hi") (Except.ok "**ok**")).1.chat_history =
      some [systemTurn, { role := "user", content := "hi" },
        { role := "assistant", content := "**ok**" }] ∧
    (chat emptySession (some "hi") (Except.ok "**ok**")).2 = ChatResult.ok "ok" :=
  chat_success_appends_user_then_assistant emptySession "hi" "**ok**" (by decide) (Or.inl rfl)

lemma oneSystemFirst_append (h l : List Turn)
    (h1 : oneSystemFirst h) (h2 : ∀ t ∈ l, t.role ≠ "system") :
    oneSystemFirst (h ++ l) := by
  obtain ⟨hd, hc⟩ := h1
  refine ⟨?_, ?_⟩
  · cases h with
    | nil => simp at hd
    | cons x xs => simpa using hd
  · rw [List.countP_append]
    have hz : l.countP (fun t => t.role == "system") = 0 := by
      rw [List.countP_eq_zero]
      intro t ht
      simpa using h2 t ht
    rw [hz, hc]

lemma oneSystemFirst_seeded (rest : List Turn) (hrest : ∀ t ∈ rest, t.role ≠ "system") :
    oneSystemFirst (systemTurn :: rest) := by
  refine ⟨by simp [systemTurn], ?_⟩
  have hz : rest.countP (fun t => t.role == "system") = 0 := by
    rw [List.countP_eq_zero]
    intro t ht
    simpa using hrest t ht
  simp [List.countP_cons, hz, systemTurn]

lemma histAfterInit_some (st : SessionState) (h : List Turn)
    (hh : st.chat_history = some h) : histAfterInit st = h := by
  simp [histAfterInit, initSession, hh]

lemma histAfterInit_none (st : SessionState)
    (hh : st.chat_history = none) : histAfterInit st = [systemTurn] := by
  simp [histAfterInit, initSession, hh]

/-- The transcript a non-blank `/chat` call leaves behind: the (possibly just
initialized) prior transcript, then the user turn with the effective message,
then a possibly-empty tail of assistant turns. -/
lemma chat_history_shape (st : SessionState) (m : String) (comp : Except String String)
    (hm : pyStrip m ≠ "") :
    ∃ tail, (chat st (some m) comp).1.chat_history =
      some (histAfterInit st ++
        { role := "user", content := effectiveMessage (histAfterInit st) (pyStrip m) } :: tail) ∧
      ∀ t ∈ tail, t.role = "assistant" := by
  obtain ⟨ch, cnt, tst⟩ := st
  cases comp with
  | error e =>
    refine ⟨[], ?_, by simp⟩
    cases ch with
    | none => simp [chat, hm, initSession, histAfterInit]
    | some h => simp [chat, hm, initSession, histAfterInit]
  | ok a =>
    refine ⟨[{ role := "assistant", content := a }], ?_, by simp⟩
    cases ch with
    | none => simp [chat, hm, initSession, histAfterInit]
    | some h =>
      cases cnt with
      | none => simp [chat, hm, initSession, histAfterInit]
      | some n => simp [chat, hm, initSession, histAfterInit]

/-- Claim C2: once a session's transcript is initialized it begins with
exactly one `system` turn, and this holds after every chat-handler call: a
call on an uninitialized session seeds exactly one system turn carrying the
fixed persona string with the reply count zero (observable on the error path,
where no increment happens), and every later call only appends user and
assistant turns after it. -/
theorem chat_preserves_single_system_turn (st : SessionState) (m : Option String)
    (comp : Except String String)
    (hpre : ∀ h, st.chat_history = some h → oneSystemFirst h) :
    (∀ h2, (chat st m comp).1.chat_history = some h2 → oneSystemFirst h2) ∧
    (st.chat_history = none → pyStrip (m.getD "") ≠ "" →
      ∃ h2, (chat st m comp).1.chat_history = some h2 ∧
        h2.head? = some systemTurn ∧
        ∀ e, comp = Except.error e → (chat st m comp).1.bot_response_count = some 0) := by
  by_cases hm : pyStrip (m.getD "") = ""
  · have hid : chat st m comp = (st, ChatResult.validationError "Please enter a message.") := by
      simp [chat, hm]
    constructor
    · intro h2 hh2
      rw [hid] at hh2
      exact hpre h2 hh2
    · intro _ hne
      exact absurd hm hne
  · have heq : chat st m comp = chat st (some (m.getD "")) comp := rfl
    obtain ⟨tail, htail, hroles⟩ := chat_history_shape st (m.getD "") comp hm
    rw [← heq] at htail
    have hcons : ∀ t ∈
        ({ role := "user"
           content := effectiveMessage (histAfterInit st) (pyStrip (m.getD "")) } : Turn) :: tail,
        t.role ≠ "system" := by
      intro t ht
      rcases List.mem_cons.mp ht with h1 | h1
      · subst h1; simp
      · rw [hroles t h1]; simp
    constructor
    · intro h2 hh2
      rw [htail] at hh2
      injection hh2 with hh2
      subst hh2
      rcases hch : st.chat_history with _ | h
      · rw [histAfterInit_none st hch] at hcons ⊢
        exact oneSystemFirst_seeded _ hcons
      · rw [histAfterInit_some st h hch] at hcons ⊢
        exact oneSystemFirst_append _ _ (hpre h hch) hcons
    · intro hnone _
      refine ⟨_, htail, ?_, ?_⟩
      · rw [histAfterInit_none st hnone]
        simp
      · intro e hcomp
        subst hcomp
        obtain ⟨ch, cnt, tst⟩ := st
        simp only [SessionState.mk.injEq] at hnone
        subst hnone
        simp [chat, hm, initSession]

/-- Witness for C2: a fresh session and a failing completion; the resulting
transcript satisfies the single-system-turn property. -/
theorem chat_preserves_single_system_turn_witness :
    oneSystemFirst ((chat emptySession (some "hi") (Except.error "x")).1.chat_history.getD []) :=
  (chat_preserves_single_system_turn emptySession (some "hi") (Except.error "x")
    (fun _ hh => Option.noConfusion hh)).1 _ rfl

lemma countAssistant_append_user (h : List Turn) (c : String) :
    countAssistant (h ++ [{ role := "user", content := c }]) = countAssistant h := by
  simp [countAssistant]

lemma countAssistant_append_assistant (h : List Turn) (c : String) :
    countAssistant (h ++ [{ role := "assistant", content := c }]) = countAssistant h + 1 := by
  simp [countAssistant]

/-- Claim C8: the reply counter tracks assistant turns: the invariant "both
keys absent, or the counter equals the number of assistant turns in the
transcript" is preserved by every chat call; each successful exchange
increments the counter by exactly one; and two back-to-back successful
exchanges from a fresh session take it from 0 to 2. -/
theorem chat_reply_count_tracks_assistant_turns :
    replyCountInv emptySession ∧
    (∀ st m comp, replyCountInv st → replyCountInv (chat st m comp).1) ∧
    (∀ st m a r, replyCountInv st →
      (chat st (some m) (Except.ok a)).2 = ChatResult.ok r →
      (chat st (some m) (Except.ok a)).1.bot_response_count =
        some (st.bot_response_count.getD 0 + 1)) ∧
    (∀ m1 m2 a1 a2, pyStrip m1 ≠ "" → pyStrip m2 ≠ "" →
      (chat (chat emptySession (some m1) (Except.ok a1)).1
          (some m2) (Except.ok a2)).1.bot_response_count = some 2) := by
  refine ⟨trivial, ?_, ?_, ?_⟩
  · intro st m comp hinv
    by_cases hm : pyStrip (m.getD "") = ""
    · have hid : chat st m comp = (st, ChatResult.validationError "Please enter a message.") := by
        simp [chat, hm]
      rw [hid]
      exact hinv
    · obtain ⟨ch, cnt, tst⟩ := st
      cases ch with
      | none =>
        cases cnt with
        | none =>
          cases comp with
          | error e =>
            simp [chat, hm, initSession, replyCountInv, countAssistant,
              List.countP_cons, systemTurn]
          | ok a =>
            simp [chat, hm, initSession, replyCountInv, countAssistant,
              List.countP_cons, systemTurn]
        | some k => simp [replyCountInv] at hinv
      | some h =>
        cases cnt with
        | none => simp [replyCountInv] at hinv
        | some n =>
          simp [replyCountInv] at hinv
          cases comp with
          | error e =>
            simpa [chat, hm, initSession, replyCountInv, countAssistant_append_user] using hinv
          | ok a =>
            simpa [chat, hm, initSession, replyCountInv, countAssistant, List.countP_cons] using hinv
  · intro st m a r hinv hres
    by_cases hm : pyStrip m = ""
    · rw [show chat st (some m) (Except.ok a) =
          (st, ChatResult.validationError "Please enter a message.") from by simp [chat, hm]] at hres
      exact absurd hres (by simp)
    · obtain ⟨ch, cnt, tst⟩ := st
      cases ch with
      | none =>
        cases cnt with
        | none => simp [chat, hm, initSession]
        | some k => simp [replyCountInv] at hinv
      | some h =>
        cases cnt with
        | none => simp [replyCountInv] at hinv
        | some n => simp [chat, hm, initSession]
  · intro m1 m2 a1 a2 hm1 hm2
    simp [chat, hm1, hm2, initSession, emptySession]

/-- Witness for C8: the two-exchange counter run applied at concrete inputs. -/
theorem chat_reply_count_tracks_assistant_turns_witness :
    (chat (chat emptySession (some "a") (Except.ok "x")).1
        (some "b") (Except.ok "y")).1.bot_response_count = some 2 :=
  chat_reply_count_tracks_assistant_turns.2.2.2 "a" "b" "x" "y" (by decide) (by decide)

end OttomanAI
